import Mathlib

/-!
Verification of the mock-header protobuf round-trip and the token-transfer
module-event conversions of `cosmos-ibc-rs`.

The embedding follows `crates/ibc/src/mock/header.rs` and
`crates/ibc/src/applications/transfer/events.rs`.  Types that those files
use but whose sources are elsewhere in the repository (`Height`,
`Timestamp`, the prost-generated raw messages and their wire encoding, the
transfer module identifier) are modelled from the spec; each such
definition says so in its doc comment.
-/

namespace Ibc

/-! ## Protobuf wire encoding (base-128 varints, tag-length-value fields)

Modelled from the spec: "all persisted/exchanged structures round-trip
through a canonical encode/decode pair" — the prost-generated encoding of
`ibc.mock.Header` (`RawMockHeader`), `ibc.core.client.v1.Height`
(`RawHeight`) and `google.protobuf.Any` is the standard proto3 wire
format: little-endian base-128 varints, field keys `fieldNumber * 8 +
wireType`, length-delimited nested messages, fields omitted when they hold
their default value. -/

/-- Little-endian base-128 varint digits of `n`; `fuel` bounds the digit
count (`fuel = n` always suffices since the digit count is at most `n`). -/
def varintAux : Nat → Nat → List Nat
  | 0, n => [n % 128]
  | fuel + 1, n => if n < 128 then [n] else (n % 128 + 128) :: varintAux fuel (n / 128)

/-- Protobuf varint encoding of a natural number. -/
def varint (n : Nat) : List Nat :=
  varintAux n n

/-- Parse one varint from the front of a byte list, returning its value and
the remaining bytes. -/
def parseVarint : List Nat → Option (Nat × List Nat)
  | [] => Option.none
  | b :: rest =>
    if b < 128 then some (b, rest)
    else
      match parseVarint rest with
      | some (v, r) => some (b % 128 + v * 128, r)
      | Option.none => Option.none

theorem varintAux_parse (fuel : Nat) :
    ∀ n, n ≤ fuel → ∀ rest : List Nat, parseVarint (varintAux fuel n ++ rest) = some (n, rest) := by
  induction fuel with
  | zero =>
    intro n hn rest
    interval_cases n
    simp [varintAux, parseVarint]
  | succ fuel ih =>
    intro n hn rest
    by_cases h : n < 128
    · simp [varintAux, parseVarint, h]
    · have hdiv : n / 128 ≤ fuel := by
        have : n / 128 < n := Nat.div_lt_self (by omega) (by omega)
        omega
      have hrec := ih (n / 128) hdiv rest
      have hmod : ¬ (n % 128 + 128 < 128) := by omega
      simp only [varintAux, if_neg h, List.cons_append, parseVarint, if_neg hmod, hrec]
      have : n % 128 + 128 ≥ 128 := by omega
      have hn' : (n % 128 + 128) % 128 = n % 128 := by omega
      rw [hn']
      congr 2
      omega

/-- `parseVarint` inverts `varint` in front of any continuation. -/
theorem parseVarint_varint (n : Nat) (rest : List Nat) :
    parseVarint (varint n ++ rest) = some (n, rest) := by
  exact varintAux_parse n n le_rfl rest

theorem varintAux_ne_nil (fuel n : Nat) : varintAux fuel n ≠ [] := by
  cases fuel with
  | zero => simp [varintAux]
  | succ fuel =>
    by_cases h : n < 128 <;> simp [varintAux, h]

theorem varint_ne_nil (n : Nat) : varint n ≠ [] :=
  varintAux_ne_nil n n

theorem varint_length_pos (n : Nat) : 0 < (varint n).length :=
  List.length_pos.mpr (varint_ne_nil n)

/-- A `uint64` field (wire type 0): key byte(s) then value varint; omitted
when the value is `0` (proto3 default). `key = fieldNumber * 8`. -/
def encU64Field (key : Nat) (v : Nat) : List Nat :=
  if v = 0 then [] else varint key ++ varint v

/-- A length-delimited field (wire type 2): key, payload length, payload.
`key = fieldNumber * 8 + 2`. -/
def encLenField (key : Nat) (payload : List Nat) : List Nat :=
  varint key ++ varint payload.length ++ payload

/-- UTF-8 bytes of a string (the type URLs involved are ASCII, where UTF-8
agrees with the code points). -/
def strBytes (s : String) : List Nat :=
  s.data.map Char.toNat

/-! ## Raw messages and their encoding

Modelled from the spec: the prost-generated messages backing
`crates/ibc/src/mock/header.rs` (`ibc_proto::ibc::mock::Header` with
fields `height` (1, message) and `timestamp` (2, uint64);
`ibc.core.client.v1.Height` with fields `revision_number` (1, uint64) and
`revision_height` (2, uint64); `google.protobuf.Any` with fields
`type_url` (1, string) and `value` (2, bytes)) are not under `src/`. -/

/-- `ibc.core.client.v1.Height` raw message. -/
structure RawHeight where
  revision_number : Nat
  revision_height : Nat
  deriving DecidableEq, Repr

/-- `ibc_proto::ibc::mock::Header` raw message. -/
structure RawMockHeader where
  height : Option RawHeight
  timestamp : Nat
  deriving DecidableEq, Repr

/-- `google.protobuf.Any`: a type-URL tag plus opaque value bytes. -/
structure AnyMsg where
  type_url : String
  value : List Nat
  deriving DecidableEq, Repr

/-- proto3 encoding of `RawHeight`: uint64 fields 1 and 2, each omitted
when zero. -/
def encodeRawHeight (h : RawHeight) : List Nat :=
  encU64Field 8 h.revision_number ++ encU64Field 16 h.revision_height

/-- proto3 encoding of `RawMockHeader`: nested message field 1 (emitted
whenever `height` is `Some`, even if its payload is empty) and uint64
field 2 (omitted when zero). -/
def encodeRawMockHeader (r : RawMockHeader) : List Nat :=
  (match r.height with
   | Option.none => []
   | some h => encLenField 10 (encodeRawHeight h)) ++
  encU64Field 16 r.timestamp

/-- proto3 encoding of `Any`: string field 1 and bytes field 2, each
omitted when empty. -/
def encodeAnyMsg (a : AnyMsg) : List Nat :=
  (if a.type_url = "" then [] else encLenField 10 (strBytes a.type_url)) ++
  (if a.value = [] then [] else encLenField 18 a.value)

/-! ## Decoding (prost `Message::decode`)

A message decoder loops over key/value fields until the buffer is empty,
skipping unknown fields by wire type and failing on truncated input,
invalid wire types (3, 4, ≥ 6) and field number 0.  The `fuel` argument
only bounds the iteration count; each iteration consumes at least one
byte, so `fuel = length of the buffer` never cuts a decode short. -/

/-- Skip one unknown field's payload given its wire type: 0 = varint,
1 = eight bytes, 2 = length-delimited, 5 = four bytes; anything else is an
error. -/
def skipField (wt : Nat) (l : List Nat) : Option (List Nat) :=
  match wt with
  | 0 => (parseVarint l).map Prod.snd
  | 1 => if 8 ≤ l.length then some (l.drop 8) else Option.none
  | 2 =>
    (parseVarint l).bind fun p =>
      if p.1 ≤ p.2.length then some (p.2.drop p.1) else Option.none
  | 5 => if 4 ≤ l.length then some (l.drop 4) else Option.none
  | _ => Option.none

/-- Field loop of the `RawHeight` decoder: fields 1 and 2 are uint64
varints overwriting the accumulator, other fields are skipped. -/
def decRawHeightLoop : Nat → List Nat → RawHeight → Option RawHeight
  | _, [], acc => some acc
  | 0, _ :: _, _ => Option.none
  | fuel + 1, b :: rest, acc =>
    match parseVarint (b :: rest) with
    | Option.none => Option.none
    | some (key, r1) =>
      if key / 8 = 0 then Option.none
      else if key / 8 = 1 then
        if key % 8 = 0 then
          match parseVarint r1 with
          | some (v, r2) => decRawHeightLoop fuel r2 { acc with revision_number := v }
          | Option.none => Option.none
        else Option.none
      else if key / 8 = 2 then
        if key % 8 = 0 then
          match parseVarint r1 with
          | some (v, r2) => decRawHeightLoop fuel r2 { acc with revision_height := v }
          | Option.none => Option.none
        else Option.none
      else
        match skipField (key % 8) r1 with
        | some r2 => decRawHeightLoop fuel r2 acc
        | Option.none => Option.none

/-- Decode a `RawHeight` message body, merging into `init` (prost merges a
nested message into the value already present). -/
def decodeRawHeight (l : List Nat) (init : RawHeight) : Option RawHeight :=
  decRawHeightLoop l.length l init

/-- Field loop of the `RawMockHeader` decoder: field 1 is the nested
`RawHeight` (wire type 2, merged into the current value or a default),
field 2 is the uint64 timestamp, other fields are skipped. -/
def decRawMockHeaderLoop : Nat → List Nat → RawMockHeader → Option RawMockHeader
  | _, [], acc => some acc
  | 0, _ :: _, _ => Option.none
  | fuel + 1, b :: rest, acc =>
    match parseVarint (b :: rest) with
    | Option.none => Option.none
    | some (key, r1) =>
      if key / 8 = 0 then Option.none
      else if key / 8 = 1 then
        if key % 8 = 2 then
          match parseVarint r1 with
          | some (len, r2) =>
            if len ≤ r2.length then
              match decodeRawHeight (r2.take len) (acc.height.getD ⟨0, 0⟩) with
              | some h => decRawMockHeaderLoop fuel (r2.drop len) { acc with height := some h }
              | Option.none => Option.none
            else Option.none
          | Option.none => Option.none
        else Option.none
      else if key / 8 = 2 then
        if key % 8 = 0 then
          match parseVarint r1 with
          | some (v, r2) => decRawMockHeaderLoop fuel r2 { acc with timestamp := v }
          | Option.none => Option.none
        else Option.none
      else
        match skipField (key % 8) r1 with
        | some r2 => decRawMockHeaderLoop fuel r2 acc
        | Option.none => Option.none

/-- Decode a `RawMockHeader` from a byte buffer (prost `decode_vec`). -/
def decodeRawMockHeader (l : List Nat) : Option RawMockHeader :=
  decRawMockHeaderLoop l.length l ⟨Option.none, 0⟩

theorem decRawHeightLoop_nil (fuel : Nat) (acc : RawHeight) :
    decRawHeightLoop fuel [] acc = some acc := by
  cases fuel <;> simp [decRawHeightLoop]

theorem decRawHeightLoop_field1 (fuel v : Nat) (rest : List Nat) (acc : RawHeight) :
    decRawHeightLoop (fuel + 1) (8 :: (varint v ++ rest)) acc =
      decRawHeightLoop fuel rest { acc with revision_number := v } := by
  simp [decRawHeightLoop, parseVarint, parseVarint_varint]

theorem decRawHeightLoop_field2 (fuel v : Nat) (rest : List Nat) (acc : RawHeight) :
    decRawHeightLoop (fuel + 1) (16 :: (varint v ++ rest)) acc =
      decRawHeightLoop fuel rest { acc with revision_height := v } := by
  simp [decRawHeightLoop, parseVarint, parseVarint_varint]

theorem varint_eight : varint 8 = [8] := by decide

theorem varint_sixteen : varint 16 = [16] := by decide

theorem decRawHeightLoop_encode (rn rh k : Nat) :
    decRawHeightLoop (k + 2) (encU64Field 8 rn ++ encU64Field 16 rh) ⟨0, 0⟩ =
      some ⟨rn, rh⟩ := by
  have hk : k + 2 = (k + 1) + 1 := rfl
  by_cases hrn : rn = 0 <;> by_cases hrh : rh = 0
  · subst hrn; subst hrh
    simp [encU64Field, decRawHeightLoop_nil]
  · subst hrn
    have hl : encU64Field 8 0 ++ encU64Field 16 rh = 16 :: (varint rh ++ []) := by
      simp [encU64Field, hrh, varint_sixteen]
    rw [hl, hk, decRawHeightLoop_field2, decRawHeightLoop_nil]
  · subst hrh
    have hl : encU64Field 8 rn ++ encU64Field 16 0 = 8 :: (varint rn ++ []) := by
      simp [encU64Field, hrn, varint_eight]
    rw [hl, hk, decRawHeightLoop_field1, decRawHeightLoop_nil]
  · have hl : encU64Field 8 rn ++ encU64Field 16 rh =
        8 :: (varint rn ++ (16 :: (varint rh ++ []))) := by
      simp [encU64Field, hrn, hrh, varint_eight, varint_sixteen]
    rw [hl, hk, decRawHeightLoop_field1, decRawHeightLoop_field2, decRawHeightLoop_nil]

/-- Decoding inverts encoding for `RawHeight`, starting from the default
merge value. -/
theorem decodeRawHeight_encode (h : RawHeight) :
    decodeRawHeight (encodeRawHeight h) ⟨0, 0⟩ = some h := by
  obtain ⟨rn, rh⟩ := h
  by_cases hrn : rn = 0 <;> by_cases hrh : rh = 0
  · subst hrn; subst hrh
    simp [decodeRawHeight, encodeRawHeight, encU64Field, decRawHeightLoop_nil]
  all_goals {
    have hlen : 2 ≤ (encodeRawHeight ⟨rn, rh⟩).length := by
      have h1 := varint_length_pos rn
      have h2 := varint_length_pos rh
      simp only [encodeRawHeight, encU64Field, List.length_append]
      by_cases h8 : rn = 0 <;> by_cases h16 : rh = 0 <;>
        simp_all [varint_eight, varint_sixteen] <;> omega
    obtain ⟨k, hkl⟩ : ∃ k, (encodeRawHeight ⟨rn, rh⟩).length = k + 2 :=
      ⟨(encodeRawHeight ⟨rn, rh⟩).length - 2, by omega⟩
    rw [decodeRawHeight, hkl]
    exact decRawHeightLoop_encode rn rh k
  }

theorem decRawMockHeaderLoop_nil (fuel : Nat) (acc : RawMockHeader) :
    decRawMockHeaderLoop fuel [] acc = some acc := by
  cases fuel <;> simp [decRawMockHeaderLoop]

theorem decRawMockHeaderLoop_height (fuel : Nat) (P rest : List Nat) (acc : RawMockHeader) :
    decRawMockHeaderLoop (fuel + 1) (10 :: (varint P.length ++ (P ++ rest))) acc =
      match decodeRawHeight P (acc.height.getD ⟨0, 0⟩) with
      | some hh => decRawMockHeaderLoop fuel rest { acc with height := some hh }
      | Option.none => Option.none := by
  have htake : (P ++ rest).take P.length = P := List.take_left P rest
  have hdrop : (P ++ rest).drop P.length = rest := List.drop_left P rest
  have hle : P.length ≤ (P ++ rest).length := by simp
  simp [decRawMockHeaderLoop, parseVarint, parseVarint_varint, hle, htake, hdrop]

theorem decRawMockHeaderLoop_ts (fuel v : Nat) (rest : List Nat) (acc : RawMockHeader) :
    decRawMockHeaderLoop (fuel + 1) (16 :: (varint v ++ rest)) acc =
      decRawMockHeaderLoop fuel rest { acc with timestamp := v } := by
  simp [decRawMockHeaderLoop, parseVarint, parseVarint_varint]

theorem decRawMockHeaderLoop_height_of (fuel : Nat) (P rest : List Nat)
    (acc : RawMockHeader) (hh : RawHeight)
    (h : decodeRawHeight P (acc.height.getD ⟨0, 0⟩) = some hh) :
    decRawMockHeaderLoop (fuel + 1) (10 :: (varint P.length ++ (P ++ rest))) acc =
      decRawMockHeaderLoop fuel rest { acc with height := some hh } := by
  rw [decRawMockHeaderLoop_height, h]

/-- Decoding inverts encoding for `RawMockHeader` values whose height field
is present (the shape `From<MockHeader> for RawMockHeader` produces). -/
theorem decodeRawMockHeader_encode (hh : RawHeight) (ts : Nat) :
    decodeRawMockHeader (encodeRawMockHeader ⟨some hh, ts⟩) = some ⟨some hh, ts⟩ := by
  have hbytes : encodeRawMockHeader ⟨some hh, ts⟩ =
      10 :: (varint (encodeRawHeight hh).length ++
        (encodeRawHeight hh ++ encU64Field 16 ts)) := by
    simp [encodeRawMockHeader, encLenField, show varint 10 = [10] from by decide]
  have hdec : decodeRawHeight (encodeRawHeight hh)
      ((⟨Option.none, 0⟩ : RawMockHeader).height.getD ⟨0, 0⟩) = some hh :=
    decodeRawHeight_encode hh
  rw [decodeRawMockHeader, hbytes]
  rw [show (10 :: (varint (encodeRawHeight hh).length ++
      (encodeRawHeight hh ++ encU64Field 16 ts))).length =
      (varint (encodeRawHeight hh).length ++
        (encodeRawHeight hh ++ encU64Field 16 ts)).length + 1 from rfl]
  rw [decRawMockHeaderLoop_height_of _ _ _ _ hh hdec]
  by_cases hts : ts = 0
  · subst hts
    simp [encU64Field, decRawMockHeaderLoop_nil]
  · have hrest : encU64Field 16 ts = 16 :: (varint ts ++ []) := by
      simp [encU64Field, hts, varint_sixteen]
    have hlen : ∃ m, (varint (encodeRawHeight hh).length ++
        (encodeRawHeight hh ++ encU64Field 16 ts)).length = m + 1 := by
      have := varint_length_pos (encodeRawHeight hh).length
      refine ⟨(varint (encodeRawHeight hh).length ++
        (encodeRawHeight hh ++ encU64Field 16 ts)).length - 1, ?_⟩
      simp only [List.length_append]
      omega
    obtain ⟨m, hm⟩ := hlen
    rw [hm, hrest, decRawMockHeaderLoop_ts, decRawMockHeaderLoop_nil]

/-! ## Domain types

`Height` and `Timestamp` live in `crates/ibc/src/core/` files that are not
under `src/`; they are modelled from the spec (§3). -/

/-- Modelled from the spec: `Height` is a "(revision number, revision
height) pair" (`crates/ibc/src/core/ics02_client/height.rs` is not under
`src/`).  A constructed height always has `revision_height ≥ 1`:
`Height::min(0)` is "(0,1)" per the spec's §6 example. -/
structure Height where
  revision_number : Nat
  revision_height : Nat
  deriving DecidableEq, Repr

/-- `Height::min(revision_number)`: the smallest height of a revision,
with revision height 1. -/
def Height.min (rn : Nat) : Height :=
  ⟨rn, 1⟩

/-- `From<Height> for RawHeight`: field-by-field. -/
def rawHeightOfHeight (h : Height) : RawHeight :=
  ⟨h.revision_number, h.revision_height⟩

/-- Modelled from the spec: `TryFrom<RawHeight> for Height` composed with
`.ok()` as `header.rs` uses it — conversion succeeds iff the raw revision
height is non-zero (a valid `Height` has a positive revision height). -/
def heightOfRawHeight (r : RawHeight) : Option Height :=
  if r.revision_height = 0 then Option.none
  else some ⟨r.revision_number, r.revision_height⟩

/-- Modelled from the spec: `Timestamp` is a "monotonically non-decreasing
wall-clock value (or an explicit \"none\" sentinel ...)"
(`crates/ibc/src/core/timestamp.rs` is not under `src/`).  The wall-clock
value is its nanosecond count, which is positive: the sentinel and only
the sentinel reads back as zero nanoseconds. -/
structure Timestamp where
  nanos : Option Nat
  deriving DecidableEq, Repr

/-- `Timestamp::none()`: the explicit "none" sentinel. -/
def Timestamp.noneTs : Timestamp :=
  ⟨Option.none⟩

/-- `Timestamp::nanoseconds()`: the u64 the sentinel maps to `0`. -/
def Timestamp.nanoseconds (t : Timestamp) : Nat :=
  t.nanos.getD 0

/-- Modelled from the spec: `Timestamp::from_nanoseconds` cannot fail on a
u64 input (every u64 nanosecond count is a representable wall-clock value,
and `0` is read back as the "none" sentinel), so its error type is empty. -/
inductive ParseTimestampError : Type
  deriving DecidableEq

/-- `Timestamp::from_nanoseconds`: `0` becomes the sentinel, anything else
the corresponding wall-clock value. -/
def Timestamp.fromNanoseconds (n : Nat) : Except ParseTimestampError Timestamp :=
  if n = 0 then Except.ok ⟨Option.none⟩ else Except.ok ⟨some n⟩

/-- Decode-side error of the `Protobuf` helper trait (`ibc_proto`): either
the prost decode failed or the raw-to-domain conversion failed. -/
inductive ProtoError : Type
  | decodeFailed : ProtoError
  | conversionFailed : ProtoError
  deriving DecidableEq

/-- The `ClientError` variants `mock/header.rs` constructs
(`crates/ibc/src/core/ics02_client/error.rs` is not under `src/`; the
variants and their payloads are those the source file names). -/
inductive ClientError : Type
  | MissingRawHeader : ClientError
  | InvalidPacketTimestamp : ParseTimestampError → ClientError
  | InvalidRawHeader : ProtoError → ClientError
  | UnknownHeaderType : String → ClientError
  deriving DecidableEq

/-! ## `crates/ibc/src/mock/header.rs` -/

def MOCK_HEADER_TYPE_URL : String := "/ibc.mock.Header"

/-- `MockHeader`: a height plus a timestamp. -/
structure MockHeader where
  height : Height
  timestamp : Timestamp
  deriving DecidableEq, Repr

/-- `Default for MockHeader` (lines 22–29): `Height::min(0)` and the
default (i.e. "none") timestamp. -/
def mockHeaderDefault : MockHeader :=
  ⟨Height.min 0, Timestamp.noneTs⟩

/-- `TryFrom<RawMockHeader> for MockHeader` (lines 43–57): the height
field is unwrapped and converted, `None` or a failed conversion giving
`MissingRawHeader`; then the timestamp is converted. -/
def mockHeaderTryFromRaw (raw : RawMockHeader) : Except ClientError MockHeader :=
  match raw.height.bind heightOfRawHeight with
  | some h =>
    match Timestamp.fromNanoseconds raw.timestamp with
    | Except.ok t => Except.ok ⟨h, t⟩
    | Except.error e => Except.error (ClientError.InvalidPacketTimestamp e)
  | Option.none => Except.error ClientError.MissingRawHeader

/-- `From<MockHeader> for RawMockHeader` (lines 59–66). -/
def rawMockHeaderOfMockHeader (h : MockHeader) : RawMockHeader :=
  ⟨some (rawHeightOfHeight h.height), h.timestamp.nanoseconds⟩

/-- `Protobuf::<RawMockHeader>::decode_vec`: prost-decode the raw message,
then convert it; either failure is a `ProtoError`. -/
def mockHeaderDecodeVec (bytes : List Nat) : Except ProtoError MockHeader :=
  match decodeRawMockHeader bytes with
  | Option.none => Except.error ProtoError.decodeFailed
  | some raw =>
    match mockHeaderTryFromRaw raw with
    | Except.ok h => Except.ok h
    | Except.error _ => Except.error ProtoError.conversionFailed

/-- `From<MockHeader> for Any` (lines 118–125): tag with the mock header
type URL and encode the raw message. -/
def anyOfMockHeader (h : MockHeader) : AnyMsg :=
  ⟨MOCK_HEADER_TYPE_URL, encodeRawMockHeader (rawMockHeaderOfMockHeader h)⟩

/-- `TryFrom<Any> for MockHeader` (lines 104–116): dispatch on the type
URL; a match decodes the value bytes, anything else is
`UnknownHeaderType`. -/
def mockHeaderTryFromAny (a : AnyMsg) : Except ClientError MockHeader :=
  if a.type_url = MOCK_HEADER_TYPE_URL then
    match mockHeaderDecodeVec a.value with
    | Except.ok h => Except.ok h
    | Except.error e => Except.error (ClientError.InvalidRawHeader e)
  else
    Except.error (ClientError.UnknownHeaderType a.type_url)

/-- `Protobuf::<Any>::encode_vec` of a mock header, as the `encode_any`
test exercises it: convert to `Any`, then proto-encode that. -/
def mockHeaderEncodeVecAny (h : MockHeader) : List Nat :=
  encodeAnyMsg (anyOfMockHeader h)

/-- The valid mock headers: the height was constructed through the
`Height` smart constructors (positive revision height, u64 fields) and
the timestamp is a representable u64 nanosecond count, with the sentinel
the only value reading back as zero. -/
def MockHeader.Valid (x : MockHeader) : Prop :=
  0 < x.height.revision_height ∧
  x.height.revision_number < 2 ^ 64 ∧
  x.height.revision_height < 2 ^ 64 ∧
  x.timestamp.nanos ≠ some 0 ∧
  x.timestamp.nanoseconds < 2 ^ 64

/-! ## `crates/ibc/src/applications/transfer/events.rs`

Attribute values in the source are the `Display` strings of `Signer`,
`PrefixedDenom`, `Amount` and the acknowledgement; those types live
outside `src/`, so, modelled from the spec, they are carried here as their
display strings (the conversions never inspect them). -/

/-- Modelled from the spec: a signer (sender/receiver account), carried as
its display string. -/
def Signer : Type := String

/-- Modelled from the spec: "token identity (owner-chain trace prefix +
base denom)", carried as its display string. -/
def PrefixedDenom : Type := String

/-- Modelled from the spec: a non-negative token amount, carried as its
display string. -/
def Amount : Type := String

/-- Modelled from the spec: the tagged Success/Error acknowledgement of
the token-transfer module
(`crates/ibc/src/applications/transfer/acknowledgement.rs` is not under
`src/`), its payload carried as a display string. -/
inductive TokenTransferAcknowledgement : Type
  | Success : String → TokenTransferAcknowledgement
  | Error : String → TokenTransferAcknowledgement
  deriving DecidableEq

/-- Modelled from the spec: the `Display` string of an acknowledgement. -/
def TokenTransferAcknowledgement.displayString : TokenTransferAcknowledgement → String
  | TokenTransferAcknowledgement.Success s => s
  | TokenTransferAcknowledgement.Error e => e

/-- Modelled from the spec: `MODULE_ID_STR`, "the transfer module
identifier" (`crates/ibc/src/applications/transfer/mod.rs` is not under
`src/`). -/
def MODULE_ID_STR : String := "transfer"

def EVENT_TYPE_PACKET : String := "fungible_token_packet"
def EVENT_TYPE_TIMEOUT : String := "timeout"
def EVENT_TYPE_DENOM_TRACE : String := "denomination_trace"
def EVENT_TYPE_TRANSFER : String := "ibc_transfer"

/-- One (key, value) attribute of a `ModuleEvent`. -/
structure ModuleEventAttribute where
  key : String
  value : String
  deriving DecidableEq, Repr

/-- `ModuleEvent`: a kind string plus an ordered attribute list. -/
structure ModuleEvent where
  kind : String
  attributes : List ModuleEventAttribute
  deriving DecidableEq, Repr

structure RecvEvent where
  sender : Signer
  receiver : Signer
  denom : PrefixedDenom
  amount : Amount
  success : Bool

structure AckEvent where
  sender : Signer
  receiver : Signer
  denom : PrefixedDenom
  amount : Amount
  acknowledgement : TokenTransferAcknowledgement

structure AckStatusEvent where
  acknowledgement : TokenTransferAcknowledgement

structure TimeoutEvent where
  refund_receiver : Signer
  refund_denom : PrefixedDenom
  refund_amount : Amount

structure DenomTraceEvent where
  trace_hash : Option String
  denom : PrefixedDenom

structure TransferEvent where
  sender : Signer
  receiver : Signer
  amount : Amount
  denom : PrefixedDenom

/-- The transfer application's event sum (lines 12–19). -/
inductive Event : Type
  | Recv : RecvEvent → Event
  | Ack : AckEvent → Event
  | AckStatus : AckStatusEvent → Event
  | Timeout : TimeoutEvent → Event
  | DenomTrace : DenomTraceEvent → Event
  | Transfer : TransferEvent → Event

/-- `From<RecvEvent> for ModuleEvent` (lines 29–50). -/
def moduleEventOfRecv (ev : RecvEvent) : ModuleEvent :=
  { kind := EVENT_TYPE_PACKET,
    attributes :=
      [⟨"module", MODULE_ID_STR⟩,
       ⟨"sender", ev.sender⟩,
       ⟨"receiver", ev.receiver⟩,
       ⟨"denom", ev.denom⟩,
       ⟨"amount", ev.amount⟩,
       ⟨"success", cond ev.success "true" "false"⟩] }

/-- `From<AckEvent> for ModuleEvent` (lines 60–81). -/
def moduleEventOfAck (ev : AckEvent) : ModuleEvent :=
  { kind := EVENT_TYPE_PACKET,
    attributes :=
      [⟨"module", MODULE_ID_STR⟩,
       ⟨"sender", ev.sender⟩,
       ⟨"receiver", ev.receiver⟩,
       ⟨"denom", ev.denom⟩,
       ⟨"amount", ev.amount⟩,
       ⟨"acknowledgement", ev.acknowledgement.displayString⟩] }

/-- `From<AckStatusEvent> for ModuleEvent` (lines 87–100): the single
attribute's key depends on the acknowledgement variant. -/
def moduleEventOfAckStatus (ev : AckStatusEvent) : ModuleEvent :=
  let attr_label :=
    match ev.acknowledgement with
    | TokenTransferAcknowledgement.Success _ => "success"
    | TokenTransferAcknowledgement.Error _ => "error"
  { kind := EVENT_TYPE_PACKET,
    attributes := [⟨attr_label, ev.acknowledgement.displayString⟩] }

/-- `From<TimeoutEvent> for ModuleEvent` (lines 108–125). -/
def moduleEventOfTimeout (ev : TimeoutEvent) : ModuleEvent :=
  { kind := EVENT_TYPE_TIMEOUT,
    attributes :=
      [⟨"module", MODULE_ID_STR⟩,
       ⟨"refund_receiver", ev.refund_receiver⟩,
       ⟨"refund_denom", ev.refund_denom⟩,
       ⟨"refund_amount", ev.refund_amount⟩] }

/-- `From<DenomTraceEvent> for ModuleEvent` (lines 132–144): start with
the denom attribute, push the trace hash only when present. -/
def moduleEventOfDenomTrace (ev : DenomTraceEvent) : ModuleEvent :=
  let base : ModuleEvent :=
    { kind := EVENT_TYPE_DENOM_TRACE, attributes := [⟨"denom", ev.denom⟩] }
  match ev.trace_hash with
  | some hash => { base with attributes := base.attributes ++ [⟨"trace_hash", hash⟩] }
  | Option.none => base

/-- `From<TransferEvent> for ModuleEvent` (lines 153–172). -/
def moduleEventOfTransfer (ev : TransferEvent) : ModuleEvent :=
  { kind := EVENT_TYPE_TRANSFER,
    attributes :=
      [⟨"sender", ev.sender⟩,
       ⟨"receiver", ev.receiver⟩,
       ⟨"amount", ev.amount⟩,
       ⟨"denom", ev.denom⟩] }

/-- `From<Event> for ModuleEvent` (lines 174–185): variant dispatch. -/
def moduleEventOfEvent : Event → ModuleEvent
  | Event.Recv ev => moduleEventOfRecv ev
  | Event.Ack ev => moduleEventOfAck ev
  | Event.AckStatus ev => moduleEventOfAckStatus ev
  | Event.Timeout ev => moduleEventOfTimeout ev
  | Event.DenomTrace ev => moduleEventOfDenomTrace ev
  | Event.Transfer ev => moduleEventOfTransfer ev

/-! ## Claims -/

/-- C1 (counterexample): encoding the *default* mock header — height
(0,1), "none" timestamp — into the `Any` envelope does **not** produce the
spec's fixed byte sequence (it produces
`[10,16,…,18,4,10,2,16,1]`, whose value field encodes height (0,1)). -/
theorem c1_default_header_encoding_counterexample :
    mockHeaderEncodeVecAny mockHeaderDefault ≠
      [10, 16, 47, 105, 98, 99, 46, 109, 111, 99, 107, 46, 72, 101, 97, 100,
       101, 114, 18, 6, 10, 4, 8, 1, 16, 10] := by
  decide

/-- C1 (amended): encoding the mock header at height (1,10) with a "none"
timestamp — the header the repository's `encode_any` test builds — into
the `Any` envelope produces exactly the fixed byte sequence
`[10,16,47,105,98,99,46,109,111,99,107,46,72,101,97,100,101,114,18,6,10,4,8,1,16,10]`
(26 bytes). -/
theorem c1_encode_any_fixed_bytes :
    mockHeaderEncodeVecAny ⟨⟨1, 10⟩, Timestamp.noneTs⟩ =
      [10, 16, 47, 105, 98, 99, 46, 109, 111, 99, 107, 46, 72, 101, 97, 100,
       101, 114, 18, 6, 10, 4, 8, 1, 16, 10] := by
  decide

/-- C2: converting any `TransferEvent` to a `ModuleEvent` yields kind
"ibc_transfer" and exactly the attributes
[sender, receiver, amount, denom], in that order, carrying the event's
field values. -/
theorem c2_transfer_event_attributes (ev : TransferEvent) :
    (moduleEventOfTransfer ev).kind = "ibc_transfer" ∧
    (moduleEventOfTransfer ev).attributes =
      [⟨"sender", ev.sender⟩, ⟨"receiver", ev.receiver⟩,
       ⟨"amount", ev.amount⟩, ⟨"denom", ev.denom⟩] :=
  ⟨rfl, rfl⟩

/-- C3: decoding an `Any` envelope as a `MockHeader` rejects any type URL
other than "/ibc.mock.Header" with `UnknownHeaderType` carrying that URL,
and for the matching URL decodes the value bytes instead. -/
theorem c3_try_from_any_dispatch (a : AnyMsg) :
    (a.type_url ≠ MOCK_HEADER_TYPE_URL →
      mockHeaderTryFromAny a =
        Except.error (ClientError.UnknownHeaderType a.type_url)) ∧
    (a.type_url = MOCK_HEADER_TYPE_URL →
      mockHeaderTryFromAny a =
        Except.mapError ClientError.InvalidRawHeader (mockHeaderDecodeVec a.value)) := by
  constructor
  · intro h
    simp [mockHeaderTryFromAny, h]
  · intro h
    cases hdec : mockHeaderDecodeVec a.value <;>
      simp [mockHeaderTryFromAny, h, hdec, Except.mapError]

/-- C3 witness: the dispatch at a mismatching and at the matching URL. -/
theorem c3_try_from_any_dispatch_witness :
    mockHeaderTryFromAny ⟨"/other.Type", []⟩ =
      Except.error (ClientError.UnknownHeaderType "/other.Type") ∧
    mockHeaderTryFromAny ⟨"/ibc.mock.Header", []⟩ =
      Except.mapError ClientError.InvalidRawHeader (mockHeaderDecodeVec []) :=
  ⟨(c3_try_from_any_dispatch ⟨"/other.Type", []⟩).1 (by decide),
   (c3_try_from_any_dispatch ⟨"/ibc.mock.Header", []⟩).2 rfl⟩

/-- C4: for every valid `MockHeader`, decoding the encoding returns the
same header, both through `RawMockHeader` and through the `Any`
envelope. -/
theorem c4_mock_header_round_trip (x : MockHeader) (hx : x.Valid) :
    mockHeaderTryFromRaw (rawMockHeaderOfMockHeader x) = Except.ok x ∧
    mockHeaderTryFromAny (anyOfMockHeader x) = Except.ok x := by
  obtain ⟨⟨rn, rh⟩, ⟨tn⟩⟩ := x
  obtain ⟨hrh, -, -, hts, -⟩ := hx
  dsimp only at hrh hts
  have hraw : mockHeaderTryFromRaw (rawMockHeaderOfMockHeader ⟨⟨rn, rh⟩, ⟨tn⟩⟩) =
      Except.ok ⟨⟨rn, rh⟩, ⟨tn⟩⟩ := by
    have hh : heightOfRawHeight ⟨rn, rh⟩ = some ⟨rn, rh⟩ := by
      simp only [heightOfRawHeight, if_neg (by omega : ¬ rh = 0)]
    cases tn with
    | none =>
      simp [mockHeaderTryFromRaw, rawMockHeaderOfMockHeader, rawHeightOfHeight,
        Timestamp.nanoseconds, Timestamp.fromNanoseconds, hh]
    | some n =>
      have hn : n ≠ 0 := fun h => hts (by simp [h])
      simp [mockHeaderTryFromRaw, rawMockHeaderOfMockHeader, rawHeightOfHeight,
        Timestamp.nanoseconds, Timestamp.fromNanoseconds, hh, hn]
  refine ⟨hraw, ?_⟩
  have hdec : decodeRawMockHeader
      (encodeRawMockHeader (rawMockHeaderOfMockHeader ⟨⟨rn, rh⟩, ⟨tn⟩⟩)) =
      some (rawMockHeaderOfMockHeader ⟨⟨rn, rh⟩, ⟨tn⟩⟩) :=
    decodeRawMockHeader_encode _ _
  simp [mockHeaderTryFromAny, anyOfMockHeader, mockHeaderDecodeVec, hdec, hraw]

/-- C4 witness: the round trip at the concrete header (height (1,10),
"none" timestamp). -/
theorem c4_mock_header_round_trip_witness :
    MockHeader.Valid ⟨⟨1, 10⟩, Timestamp.noneTs⟩ ∧
    (mockHeaderTryFromRaw (rawMockHeaderOfMockHeader ⟨⟨1, 10⟩, Timestamp.noneTs⟩) =
        Except.ok ⟨⟨1, 10⟩, Timestamp.noneTs⟩ ∧
      mockHeaderTryFromAny (anyOfMockHeader ⟨⟨1, 10⟩, Timestamp.noneTs⟩) =
        Except.ok ⟨⟨1, 10⟩, Timestamp.noneTs⟩) :=
  ⟨by constructor <;> decide,
   c4_mock_header_round_trip ⟨⟨1, 10⟩, Timestamp.noneTs⟩ (by constructor <;> decide)⟩

/-- C5: converting any `AckStatusEvent` yields the receive event's kind
"fungible_token_packet" and exactly one attribute, keyed "success" for the
`Success` variant and "error" for the `Error` variant. -/
theorem c5_ack_status_event_attributes (ev : AckStatusEvent) :
    (moduleEventOfAckStatus ev).kind = "fungible_token_packet" ∧
    (moduleEventOfAckStatus ev).attributes =
      [⟨match ev.acknowledgement with
        | TokenTransferAcknowledgement.Success _ => "success"
        | TokenTransferAcknowledgement.Error _ => "error",
        ev.acknowledgement.displayString⟩] := by
  cases hack : ev.acknowledgement <;>
    simp [moduleEventOfAckStatus, EVENT_TYPE_PACKET, hack]

/-- C6 (counterexample): the `ModuleEvent` of a concrete `TimeoutEvent`
does not have the attribute-key list
[refund_receiver, refund_denom, refund_amount]: a "module" attribute comes
first. -/
theorem c6_timeout_attributes_counterexample :
    (moduleEventOfTimeout ⟨"r", "d", "5"⟩).attributes.map ModuleEventAttribute.key ≠
      ["refund_receiver", "refund_denom", "refund_amount"] := by
  decide

/-- C6 (amended): converting any `TimeoutEvent` yields kind "timeout" and
the attribute list [module, refund_receiver, refund_denom, refund_amount]
in that order — the module-identifier attribute first, then the three
refund attributes carrying the event's field values. -/
theorem c6_timeout_event_attributes (ev : TimeoutEvent) :
    (moduleEventOfTimeout ev).kind = "timeout" ∧
    (moduleEventOfTimeout ev).attributes =
      [⟨"module", MODULE_ID_STR⟩,
       ⟨"refund_receiver", ev.refund_receiver⟩,
       ⟨"refund_denom", ev.refund_denom⟩,
       ⟨"refund_amount", ev.refund_amount⟩] :=
  ⟨rfl, rfl⟩

/-- C7: converting any `DenomTraceEvent` yields kind "denomination_trace",
always a "denom" attribute first, and a "trace_hash" attribute appended
after it exactly when the event's `trace_hash` is `Some`. -/
theorem c7_denom_trace_event_attributes (ev : DenomTraceEvent) :
    (moduleEventOfDenomTrace ev).kind = "denomination_trace" ∧
    (moduleEventOfDenomTrace ev).attributes =
      ⟨"denom", ev.denom⟩ ::
        (match ev.trace_hash with
         | some hash => [⟨"trace_hash", hash⟩]
         | Option.none => []) ∧
    ("trace_hash" ∈ (moduleEventOfDenomTrace ev).attributes.map ModuleEventAttribute.key ↔
      ev.trace_hash ≠ Option.none) := by
  cases htr : ev.trace_hash <;>
    simp [moduleEventOfDenomTrace, EVENT_TYPE_DENOM_TRACE, htr]

/-- C8: the conversion of the transfer application's `Event` sum into
`ModuleEvent` is total: on every variant it returns the corresponding
per-variant conversion's `ModuleEvent` (whose kind is one of the four
event kinds); there is no error branch. -/
theorem c8_event_conversion_total (ev : Event) :
    moduleEventOfEvent ev =
      (match ev with
       | Event.Recv e => moduleEventOfRecv e
       | Event.Ack e => moduleEventOfAck e
       | Event.AckStatus e => moduleEventOfAckStatus e
       | Event.Timeout e => moduleEventOfTimeout e
       | Event.DenomTrace e => moduleEventOfDenomTrace e
       | Event.Transfer e => moduleEventOfTransfer e) ∧
    (moduleEventOfEvent ev).kind ∈
      [EVENT_TYPE_PACKET, EVENT_TYPE_TIMEOUT, EVENT_TYPE_DENOM_TRACE,
       EVENT_TYPE_TRANSFER] := by
  refine ⟨by cases ev <;> rfl, ?_⟩
  cases ev with
  | DenomTrace e =>
    cases htr : e.trace_hash <;>
      simp [moduleEventOfEvent, moduleEventOfDenomTrace, htr]
  | _ =>
    simp [moduleEventOfEvent, moduleEventOfRecv, moduleEventOfAck,
      moduleEventOfAckStatus, moduleEventOfTimeout, moduleEventOfTransfer]

/-- C9: the `ModuleEvent`s from `RecvEvent`, `AckEvent` and `TimeoutEvent`
each start with a first attribute ("module", transfer module identifier),
while those from `TransferEvent`, `AckStatusEvent` and `DenomTraceEvent`
contain no "module" attribute at all. -/
theorem c9_module_attribute_placement (r : RecvEvent) (a : AckEvent)
    (t : TimeoutEvent) (s : AckStatusEvent) (d : DenomTraceEvent)
    (tr : TransferEvent) :
    (moduleEventOfRecv r).attributes.head? = some ⟨"module", MODULE_ID_STR⟩ ∧
    (moduleEventOfAck a).attributes.head? = some ⟨"module", MODULE_ID_STR⟩ ∧
    (moduleEventOfTimeout t).attributes.head? = some ⟨"module", MODULE_ID_STR⟩ ∧
    "module" ∉ (moduleEventOfTransfer tr).attributes.map ModuleEventAttribute.key ∧
    "module" ∉ (moduleEventOfAckStatus s).attributes.map ModuleEventAttribute.key ∧
    "module" ∉ (moduleEventOfDenomTrace d).attributes.map ModuleEventAttribute.key := by
  refine ⟨rfl, rfl, rfl, by simp [moduleEventOfTransfer], ?_, ?_⟩
  · cases hack : s.acknowledgement <;> simp [moduleEventOfAckStatus, hack]
  · cases htr : d.trace_hash <;> simp [moduleEventOfDenomTrace, htr]

/-- C10: converting a `RawMockHeader` whose height field is absent, or
whose raw height does not convert to a valid `Height`, fails with
`MissingRawHeader` (and, being a total function, never panics). -/
theorem c10_missing_raw_header (raw : RawMockHeader)
    (h : raw.height = Option.none ∨
      ∃ rh, raw.height = some rh ∧ heightOfRawHeight rh = Option.none) :
    mockHeaderTryFromRaw raw = Except.error ClientError.MissingRawHeader := by
  rcases h with h | ⟨rh, hsome, hconv⟩ <;>
    simp [mockHeaderTryFromRaw, *]

/-- C10 witness: an absent height and a zero revision height both yield
`MissingRawHeader`. -/
theorem c10_missing_raw_header_witness :
    mockHeaderTryFromRaw ⟨Option.none, 5⟩ =
      Except.error ClientError.MissingRawHeader ∧
    mockHeaderTryFromRaw ⟨some ⟨3, 0⟩, 7⟩ =
      Except.error ClientError.MissingRawHeader :=
  ⟨c10_missing_raw_header ⟨Option.none, 5⟩ (Or.inl rfl),
   c10_missing_raw_header ⟨some ⟨3, 0⟩, 7⟩ (Or.inr ⟨⟨3, 0⟩, rfl, by decide⟩)⟩

end Ibc

